import Mathlib

/-!
Verification of the model chain orchestration of `windpowerlib`
(`turbine_cluster_modelchain.py`, class `TurbineClusterModelChain`).

The orchestrator itself is embedded directly from the source file.  Its
collaborators (the base `ModelChain` resolvers, the plant aggregator and the
`wake_losses` module) are not part of the source tree and are modelled from the
specification; each such definition is marked `Modelled from the spec:`.
All numerics use `ℚ`.
-/

deriving instance DecidableEq for Except

namespace Windpowerlib

/-- A time series: a timestamp index together with the values column. -/
structure Series where
  index : List Nat
  values : List ℚ
deriving DecidableEq, Repr

/-- A weather data frame: timestamp index, two-level column keys
(variable name, measurement height) and the rows of values. -/
structure WeatherDf where
  index : List Nat
  cols : List (String × ℚ)
  data : List (List ℚ)
deriving DecidableEq, Repr

/-- A power curve: (wind speed, power) pairs, wind speeds ascending. -/
abbrev PowerCurve := List (ℚ × ℚ)

/-- The wind farm / cluster entity (external collaborator).  It owns the
member turbine curves, the turbine hub heights, a farm efficiency used by the
embedded wake-loss modes, and the mutable aggregated power curve and mean hub
height. -/
structure PowerPlant where
  turbine_curves : List PowerCurve
  hub_heights : List ℚ
  efficiency : ℚ
  power_curve : Option PowerCurve
  hub_height : Option ℚ
deriving DecidableEq, Repr

/-- The argument record of one call to `power_plant.assign_power_curve`. -/
structure AggregatorArgs where
  wake_losses_model : Option String
  smoothing : Bool
  block_width : ℚ
  standard_deviation_method : String
  smoothing_order : String
  turbulence_intensity : Option ℚ
deriving DecidableEq, Repr

/-- The orchestrator state: the borrowed plant, the cluster-level
configuration, the configuration inherited from the single-turbine chain, and
the lazily assigned results. -/
structure TurbineClusterModelChain where
  power_plant : PowerPlant
  wake_losses_model : Option String
  smoothing : Bool
  block_width : ℚ
  standard_deviation_method : String
  smoothing_order : String
  wind_speed_model : String
  temperature_model : String
  density_model : String
  power_output_model : String
  density_correction : Bool
  obstacle_height : ℚ
  hellman_exp : ℚ
  power_curve : Option PowerCurve
  power_output : Option Series
deriving DecidableEq, Repr

/-- `__init__`: stores the configuration and starts both results at `None`
(source lines 139-153). -/
def TurbineClusterModelChain.init (power_plant : PowerPlant)
    (wake_losses_model : Option String) (smoothing : Bool) (block_width : ℚ)
    (standard_deviation_method : String) (smoothing_order : String)
    (wind_speed_model temperature_model density_model power_output_model :
      String)
    (density_correction : Bool) (obstacle_height hellman_exp : ℚ) :
    TurbineClusterModelChain :=
  { power_plant := power_plant
    wake_losses_model := wake_losses_model
    smoothing := smoothing
    block_width := block_width
    standard_deviation_method := standard_deviation_method
    smoothing_order := smoothing_order
    wind_speed_model := wind_speed_model
    temperature_model := temperature_model
    density_model := density_model
    power_output_model := power_output_model
    density_correction := density_correction
    obstacle_height := obstacle_height
    hellman_exp := hellman_exp
    power_curve := none
    power_output := none }

/-- Arithmetic mean of a list of rationals (`values.mean()`). -/
def mean (l : List ℚ) : ℚ := l.sum / l.length

/-- All entries of the columns whose first level is `name`, row by row
(the flattened `weather_df[name].values`). -/
def colEntries (w : WeatherDf) (name : String) : List ℚ :=
  (w.data.map (fun row =>
    ((w.cols.zip row).filter (fun p => p.1.1 == name)).map Prod.snd)).flatten

/-- The values of the first column whose first level is `name`, one per row. -/
def colValues (w : WeatherDf) (name : String) : List ℚ :=
  match w.cols.findIdx? (fun c => c.1 == name) with
  | some i => w.data.map (fun row => row.getD i 0)
  | none => w.data.map (fun _ => 0)

/-- Source lines 186-189: the mean turbulence intensity over the full time
series when the column is present, else the `None` sentinel. -/
def turbulenceIntensityArg (w : WeatherDf) : Option ℚ :=
  if "turbulence_intensity" ∈ w.cols.map Prod.fst then
    some (mean (colEntries w "turbulence_intensity"))
  else none

/-- Piecewise-linear interpolation, zero outside the curve range
(`numpy.interp` with `left=0, right=0`, as used for power-curve
evaluation). -/
def interpZero : List (ℚ × ℚ) → ℚ → ℚ
  | [], _ => 0
  | [(x0, y0)], x => if x = x0 then y0 else 0
  | (x0, y0) :: (x1, y1) :: rest, x =>
    if x < x0 then 0
    else if x ≤ x1 then y0 + (y1 - y0) * (x - x0) / (x1 - x0)
    else interpZero ((x1, y1) :: rest) x

/-- Piecewise-linear interpolation clamped to the end values
(`numpy.interp` with default boundary handling, as used for wind efficiency
curves). -/
def interpClamp : List (ℚ × ℚ) → ℚ → ℚ
  | [], _ => 0
  | [(_, y0)], _ => y0
  | (x0, y0) :: (x1, y1) :: rest, x =>
    if x ≤ x0 then y0
    else if x ≤ x1 then y0 + (y1 - y0) * (x - x0) / (x1 - x0)
    else interpClamp ((x1, y1) :: rest) x

/-- Insert into a strictly ascending list, skipping duplicates. -/
def insertSorted (x : ℚ) : List ℚ → List ℚ
  | [] => [x]
  | y :: ys =>
    if x < y then x :: y :: ys
    else if x = y then y :: ys
    else y :: insertSorted x ys

/-- The strictly ascending deduplicated grid of a list of wind speeds. -/
def sortedGrid (l : List ℚ) : List ℚ := l.foldr insertSorted []

/-- A simple value smoothing kernel: each value is averaged with its right
neighbour. -/
def smoothVals : List ℚ → List ℚ
  | [] => []
  | [a] => [a]
  | a :: b :: rest => (a + b) / 2 :: smoothVals (b :: rest)

/-- Modelled from the spec: the external Power Curve Aggregator invoked via
`power_plant.assign_power_curve` (spec sections 2 and 6), split into its
stages.  This first stage is the common wind-speed grid of the member
turbine curves. -/
def aggregateGrid (p : PowerPlant) : List ℚ :=
  sortedGrid (p.turbine_curves.map (fun c => c.map Prod.fst)).flatten

/-- Modelled from the spec: the summed member-curve values on the common
grid. -/
def aggregateBaseVals (p : PowerPlant) : List ℚ :=
  (aggregateGrid p).map
    (fun v => (p.turbine_curves.map (fun c => interpZero c v)).sum)

/-- Modelled from the spec: the embedded wake-loss attenuation of the
aggregated values, applied for the `power_efficiency_curve` and
`constant_efficiency` modes. -/
def aggregateWakeVals (p : PowerPlant) (args : AggregatorArgs) : List ℚ :=
  match args.wake_losses_model with
  | some "power_efficiency_curve" =>
    (aggregateBaseVals p).map (fun v => v * p.efficiency)
  | some "constant_efficiency" =>
    (aggregateBaseVals p).map (fun v => v * p.efficiency)
  | _ => aggregateBaseVals p

/-- Modelled from the spec: the aggregated values after optional
smoothing. -/
def aggregateVals (p : PowerPlant) (args : AggregatorArgs) : List ℚ :=
  if args.smoothing then smoothVals (aggregateWakeVals p args)
  else aggregateWakeVals p args

/-- Modelled from the spec (continued): the aggregated power curve. -/
def aggregatePowerCurve (p : PowerPlant) (args : AggregatorArgs) :
    PowerCurve :=
  (aggregateGrid p).zip (aggregateVals p args)

/-- Modelled from the spec: `PowerPlant.assign_power_curve` replaces the plant
power curve wholesale with the freshly aggregated curve (spec section 3). -/
def PowerPlant.assign_power_curve (p : PowerPlant) (args : AggregatorArgs) :
    PowerPlant :=
  { p with power_curve := some (aggregatePowerCurve p args) }

/-- Modelled from the spec: `PowerPlant.mean_hub_height` updates the plant
stored mean hub height from the turbine layout (spec section 6). -/
def PowerPlant.mean_hub_height (p : PowerPlant) : PowerPlant :=
  { p with hub_height := some (mean p.hub_heights) }

/-- Modelled from the spec: the static catalog of named wind efficiency
curves, `wake_losses.get_wind_efficiency_curve`; lookup of an unknown name
fails (spec sections 3, 6 and 7). -/
def get_wind_efficiency_curve (name : String) : Option (List (ℚ × ℚ)) :=
  if name = "dena_mean" then some [(0, 1), (5, 4/5), (10, 17/20), (25, 19/20)]
  else if name = "knorr_mean" then
    some [(0, 1), (5, 17/20), (10, 9/10), (25, 19/20)]
  else if name = "dena_extreme1" then
    some [(0, 1), (5, 7/10), (10, 4/5), (25, 9/10)]
  else if name = "dena_extreme2" then
    some [(0, 1), (5, 3/4), (10, 17/20), (25, 19/20)]
  else if name = "knorr_extreme1" then
    some [(0, 1), (5, 4/5), (10, 17/20), (25, 9/10)]
  else if name = "knorr_extreme2" then
    some [(0, 1), (5, 9/10), (10, 9/10), (25, 19/20)]
  else if name = "knorr_extreme3" then
    some [(0, 1), (5, 17/20), (10, 9/10), (25, 1)]
  else none

/-- Modelled from the spec: `wake_losses.reduce_wind_speed` scales every
wind-speed sample by the efficiency of the named curve at that speed; an
unknown curve name fails at this lookup (spec sections 4.1 step 5 and 7). -/
def reduce_wind_speed (ws : Series) (name : String) :
    Except String Series :=
  match get_wind_efficiency_curve name with
  | none =>
    Except.error ("ConfigurationError: wind efficiency curve <" ++ name ++
      "> is not provided")
  | some c =>
    Except.ok { index := ws.index
                values := ws.values.map (fun v => v * interpClamp c v) }

/-- Modelled from the spec: the inherited hub-height wind-speed resolver
`ModelChain.wind_speed_hub`, a pure function of the weather and the resolved
mean hub height, aligned with the weather index (spec section 6). -/
def wind_speed_hub (mc : TurbineClusterModelChain) (w : WeatherDf) : Series :=
  { index := w.index
    values := (colValues w "wind_speed").map
      (fun v => v * ((mc.power_plant.hub_height.getD 100) / 100)) }

/-- Modelled from the spec: the inherited hub-height density resolver
`ModelChain.density_hub`, a pure function of the weather, aligned with the
weather index (spec section 6). -/
def density_hub (_mc : TurbineClusterModelChain) (w : WeatherDf) : Series :=
  { index := w.index
    values :=
      if "density" ∈ w.cols.map Prod.fst then colValues w "density"
      else w.data.map (fun _ => 49/40) }

/-- Source lines 191-209: the argument record the orchestrator passes to
`power_plant.assign_power_curve`.  The wake-loss mode is passed through
unchanged for `None` / `power_efficiency_curve` / `constant_efficiency` and
replaced by `None` for any other (named-curve) value. -/
def TurbineClusterModelChain.aggregatorCall (mc : TurbineClusterModelChain)
    (w : WeatherDf) : AggregatorArgs :=
  { wake_losses_model :=
      if mc.wake_losses_model = some "power_efficiency_curve" ∨
          mc.wake_losses_model = some "constant_efficiency" ∨
          mc.wake_losses_model = none then
        mc.wake_losses_model
      else none
    smoothing := mc.smoothing
    block_width := mc.block_width
    standard_deviation_method := mc.standard_deviation_method
    smoothing_order := mc.smoothing_order
    turbulence_intensity := turbulenceIntensityArg w }

/-- Source lines 155-217, `assign_power_curve`: computes the turbulence
intensity and the wake-loss mode, invokes the plant aggregator with them
(mutating the borrowed plant) and returns self. -/
def TurbineClusterModelChain.assign_power_curve
    (mc : TurbineClusterModelChain) (w : WeatherDf) :
    TurbineClusterModelChain :=
  { mc with power_plant :=
      mc.power_plant.assign_power_curve (mc.aggregatorCall w) }

/-- Source lines 263-264: the state after `assign_power_curve` and
`power_plant.mean_hub_height`. -/
def TurbineClusterModelChain.prepared (mc : TurbineClusterModelChain)
    (w : WeatherDf) : TurbineClusterModelChain :=
  let mc1 := mc.assign_power_curve w
  { mc1 with power_plant := mc1.power_plant.mean_hub_height }

/-- Source lines 266-268: the density argument of the final power evaluation;
the resolver is consulted only outside the plain power-curve / no-correction
combination. -/
def densityArgWith (resolver : TurbineClusterModelChain → WeatherDf → Series)
    (mc : TurbineClusterModelChain) (w : WeatherDf) : Option Series :=
  if mc.power_output_model = "power_curve" ∧ mc.density_correction = false
  then none
  else some (resolver mc w)

/-- Modelled from the spec: the inherited `ModelChain.calculate_power_output`
maps the hub wind speed (and the density, when resolved) through the plant
current power curve (spec section 6). -/
def TurbineClusterModelChain.calculate_power_output
    (mc : TurbineClusterModelChain) (ws : Series) (d : Option Series) :
    Series :=
  let curve := mc.power_plant.power_curve.getD []
  { index := ws.index
    values :=
      match d with
      | none => ws.values.map (fun v => interpZero curve v)
      | some ds =>
        List.zipWith (fun v r => interpZero curve (v * (r / (49/40))))
          ws.values ds.values }

/-- Source lines 265-277 after the preparation steps: resolve the hub wind
speed, reduce it through the named wind efficiency curve exactly when the
wake-loss model is neither `None` nor `power_efficiency_curve` nor
`constant_efficiency`, and evaluate the final power output. -/
def evalStageWith (resolver : TurbineClusterModelChain → WeatherDf → Series)
    (mc2 : TurbineClusterModelChain) (w : WeatherDf) :
    Except String Series :=
  match mc2.wake_losses_model with
  | none =>
    Except.ok (mc2.calculate_power_output (wind_speed_hub mc2 w)
      (densityArgWith resolver mc2 w))
  | some n =>
    if n = "power_efficiency_curve" ∨ n = "constant_efficiency" then
      Except.ok (mc2.calculate_power_output (wind_speed_hub mc2 w)
        (densityArgWith resolver mc2 w))
    else
      (reduce_wind_speed (wind_speed_hub mc2 w) n).map
        (fun ws2 => mc2.calculate_power_output ws2
          (densityArgWith resolver mc2 w))

/-- Source lines 219-278, `run_model`, parameterised by the density resolver
collaborator: prepare the plant, run the evaluation stage and store the
result in `power_output`. -/
def run_model_with (resolver : TurbineClusterModelChain → WeatherDf → Series)
    (mc : TurbineClusterModelChain) (w : WeatherDf) :
    Except String TurbineClusterModelChain :=
  (evalStageWith resolver (mc.prepared w) w).map
    (fun s => { mc.prepared w with power_output := some s })

/-- Source lines 219-278, `run_model`, with the inherited density resolver. -/
def TurbineClusterModelChain.run_model (mc : TurbineClusterModelChain)
    (w : WeatherDf) : Except String TurbineClusterModelChain :=
  run_model_with density_hub mc w

/-- A concrete member turbine power curve used by the witnesses. -/
def turbineCurveEx : PowerCurve := [(0, 0), (10, 100), (20, 100)]

/-- A concrete plant used by the witnesses. -/
def plantEx : PowerPlant :=
  { turbine_curves := [turbineCurveEx]
    hub_heights := [100, 100]
    efficiency := 9/10
    power_curve := none
    hub_height := none }

/-- A concrete two-row weather series without turbulence intensity. -/
def wEx : WeatherDf :=
  { index := [0, 1]
    cols := [("wind_speed", 10), ("wind_speed", 80), ("roughness_length", 0)]
    data := [[5, 6, 1/10], [7, 8, 1/10]] }

/-- A concrete two-row weather series with a turbulence intensity column. -/
def wExTI : WeatherDf :=
  { index := [0, 1]
    cols := [("wind_speed", 10), ("turbulence_intensity", 10)]
    data := [[5, 1/10], [7, 3/10]] }

/-- A freshly constructed orchestrator over `plantEx` with the given
wake-loss model, the documented defaults for the cluster options and a plain
power-curve single-turbine configuration. -/
def mcEx (wlm : Option String) : TurbineClusterModelChain :=
  TurbineClusterModelChain.init plantEx wlm false (1/2)
    "turbulence_intensity" "wind_farm_power_curves" "logarithmic"
    "linear_gradient" "barometric" "power_curve" false 0 (1/7)

/-- A variant of `mcEx` requesting the density-corrected evaluation. -/
def mcExDc (wlm : Option String) : TurbineClusterModelChain :=
  TurbineClusterModelChain.init plantEx wlm false (1/2)
    "turbulence_intensity" "wind_farm_power_curves" "logarithmic"
    "linear_gradient" "barometric" "power_curve" true 0 (1/7)

/-- A weather series like `wEx` but with different wind-speed values. -/
def wEx2 : WeatherDf :=
  { index := [0, 1]
    cols := [("wind_speed", 10), ("wind_speed", 80), ("roughness_length", 0)]
    data := [[3, 4, 2/10], [9, 11, 2/10]] }

/-- The concrete result of running `mcEx none` on `wEx`. -/
def mcRunEx : TurbineClusterModelChain :=
  (((mcEx none).run_model wEx).toOption).getD (mcEx none)

/-- The concrete result of running `mcRunEx` on `wEx` a second time. -/
def mcRunEx2 : TurbineClusterModelChain :=
  ((mcRunEx.run_model wEx).toOption).getD mcRunEx

/-- A well-formed power curve: strictly ascending wind speeds and
non-negative powers (the `PowerCurve` data-model invariant). -/
def SortedNonneg (c : PowerCurve) : Prop :=
  List.Chain' (fun a b : ℚ × ℚ => a.1 < b.1) c ∧ ∀ q ∈ c, 0 ≤ q.2

/-- A decision function for the ascending-wind-speed chain, written with
explicit recursion so that it evaluates inside the kernel. -/
def decAscending : (c : List (ℚ × ℚ)) →
    Decidable (List.Chain' (fun a b : ℚ × ℚ => a.1 < b.1) c)
  | [] => isTrue List.chain'_nil
  | [a] => isTrue (List.chain'_singleton a)
  | a :: b :: t =>
    match inferInstanceAs (Decidable (a.1 < b.1)), decAscending (b :: t) with
    | isTrue h1, isTrue h2 => isTrue (List.chain'_cons.mpr ⟨h1, h2⟩)
    | isFalse h1, _ => isFalse (fun hc => h1 (List.chain'_cons.mp hc).1)
    | _, isFalse h2 => isFalse (fun hc => h2 (List.chain'_cons.mp hc).2)

instance (c : PowerCurve) : Decidable (SortedNonneg c) :=
  @instDecidableAnd _ _ (decAscending c) inferInstance

/-- The configuration fields of the orchestrator, set at construction. -/
structure ChainConfig where
  wake_losses_model : Option String
  smoothing : Bool
  block_width : ℚ
  standard_deviation_method : String
  smoothing_order : String
  wind_speed_model : String
  temperature_model : String
  density_model : String
  power_output_model : String
  density_correction : Bool
  obstacle_height : ℚ
  hellman_exp : ℚ
deriving DecidableEq, Repr

/-- Projection of an orchestrator onto its configuration fields. -/
def configOf (mc : TurbineClusterModelChain) : ChainConfig :=
  { wake_losses_model := mc.wake_losses_model
    smoothing := mc.smoothing
    block_width := mc.block_width
    standard_deviation_method := mc.standard_deviation_method
    smoothing_order := mc.smoothing_order
    wind_speed_model := mc.wind_speed_model
    temperature_model := mc.temperature_model
    density_model := mc.density_model
    power_output_model := mc.power_output_model
    density_correction := mc.density_correction
    obstacle_height := mc.obstacle_height
    hellman_exp := mc.hellman_exp }

theorem prepared_wake_eq (mc : TurbineClusterModelChain) (w : WeatherDf) :
    (mc.prepared w).wake_losses_model = mc.wake_losses_model := rfl

/-- C1: when `wake_losses_model` is `None`, `power_efficiency_curve` or
`constant_efficiency`, `assign_power_curve` passes the wake-loss model through
unchanged to `power_plant.assign_power_curve`, and `run_model` evaluates the
final power output on exactly the unattenuated `wind_speed_hub` series — no
post-hoc wind-speed reduction is applied. -/
theorem C1_embedded_path_passthrough_and_no_reduction
    (mc : TurbineClusterModelChain) (w : WeatherDf)
    (h : mc.wake_losses_model = none ∨
      mc.wake_losses_model = some "power_efficiency_curve" ∨
      mc.wake_losses_model = some "constant_efficiency") :
    (mc.aggregatorCall w).wake_losses_model = mc.wake_losses_model ∧
    mc.run_model w = Except.ok
      { mc.prepared w with
          power_output := some ((mc.prepared w).calculate_power_output
            (wind_speed_hub (mc.prepared w) w)
            (densityArgWith density_hub (mc.prepared w) w)) } := by
  constructor
  · unfold TurbineClusterModelChain.aggregatorCall
    rcases h with h | h | h <;> simp [h]
  · unfold TurbineClusterModelChain.run_model run_model_with evalStageWith
    rw [prepared_wake_eq]
    rcases h with h | h | h <;> rw [h] <;> simp [Except.map]

theorem C1_witness :
    ((mcEx none).wake_losses_model = none ∨
      (mcEx none).wake_losses_model = some "power_efficiency_curve" ∨
      (mcEx none).wake_losses_model = some "constant_efficiency") ∧
    (((mcEx none).aggregatorCall wEx).wake_losses_model =
        (mcEx none).wake_losses_model ∧
      (mcEx none).run_model wEx = Except.ok
        { (mcEx none).prepared wEx with
            power_output := some
              (((mcEx none).prepared wEx).calculate_power_output
              (wind_speed_hub ((mcEx none).prepared wEx) wEx)
              (densityArgWith density_hub ((mcEx none).prepared wEx) wEx)) }) :=
  ⟨Or.inl rfl,
    C1_embedded_path_passthrough_and_no_reduction (mcEx none) wEx
      (Or.inl rfl)⟩

/-- C2: when `wake_losses_model` is any other value, interpreted as the name
of a wind efficiency curve, `assign_power_curve` passes `None` as the
wake-loss mode to `power_plant.assign_power_curve`, and `run_model` evaluates
the final power output on the `wind_speed_hub` series attenuated sample by
sample by exactly the named curve efficiency at that sample. -/
theorem C2_named_curve_path_posthoc_reduction
    (mc : TurbineClusterModelChain) (w : WeatherDf) (n : String)
    (c : List (ℚ × ℚ))
    (hn : mc.wake_losses_model = some n)
    (h1 : n ≠ "power_efficiency_curve") (h2 : n ≠ "constant_efficiency")
    (hc : get_wind_efficiency_curve n = some c) :
    (mc.aggregatorCall w).wake_losses_model = none ∧
    mc.run_model w = Except.ok
      { mc.prepared w with
          power_output := some ((mc.prepared w).calculate_power_output
            { index := (wind_speed_hub (mc.prepared w) w).index
              values := (wind_speed_hub (mc.prepared w) w).values.map
                (fun v => v * interpClamp c v) }
            (densityArgWith density_hub (mc.prepared w) w)) } := by
  constructor
  · unfold TurbineClusterModelChain.aggregatorCall
    simp [hn, h1, h2]
  · unfold TurbineClusterModelChain.run_model run_model_with evalStageWith
    rw [prepared_wake_eq, hn]
    simp [h1, h2, reduce_wind_speed, hc, Except.map]

theorem C2_witness :
    (mcEx (some "dena_mean")).wake_losses_model = some "dena_mean" ∧
    get_wind_efficiency_curve "dena_mean" =
      some [(0, 1), (5, 4/5), (10, 17/20), (25, 19/20)] ∧
    (((mcEx (some "dena_mean")).aggregatorCall wEx).wake_losses_model =
        none ∧
      (mcEx (some "dena_mean")).run_model wEx = Except.ok
        { (mcEx (some "dena_mean")).prepared wEx with
            power_output := some
              (((mcEx (some "dena_mean")).prepared wEx).calculate_power_output
              { index :=
                  (wind_speed_hub
                    ((mcEx (some "dena_mean")).prepared wEx) wEx).index
                values :=
                  (wind_speed_hub
                    ((mcEx (some "dena_mean")).prepared wEx) wEx).values.map
                    (fun v => v *
                      interpClamp [(0, 1), (5, 4/5), (10, 17/20), (25, 19/20)]
                        v) }
              (densityArgWith density_hub
                ((mcEx (some "dena_mean")).prepared wEx) wEx)) }) :=
  ⟨rfl, rfl,
    C2_named_curve_path_posthoc_reduction (mcEx (some "dena_mean")) wEx
      "dena_mean" [(0, 1), (5, 4/5), (10, 17/20), (25, 19/20)] rfl
      (by decide) (by decide) rfl⟩

/-- C3: the turbulence-intensity argument passed to
`power_plant.assign_power_curve` is the `None` sentinel when the weather has
no `turbulence_intensity` column (no failure is possible), and the mean of
all turbulence-intensity values over the full time series when it has one. -/
theorem C3_turbulence_intensity_sentinel_or_mean
    (mc : TurbineClusterModelChain) (w : WeatherDf) :
    ("turbulence_intensity" ∉ w.cols.map Prod.fst →
      (mc.aggregatorCall w).turbulence_intensity = none) ∧
    ("turbulence_intensity" ∈ w.cols.map Prod.fst →
      (mc.aggregatorCall w).turbulence_intensity =
        some (mean (colEntries w "turbulence_intensity"))) := by
  constructor <;> intro h <;>
    simp [TurbineClusterModelChain.aggregatorCall, turbulenceIntensityArg, h]

theorem C3_witness :
    ("turbulence_intensity" ∉ wEx.cols.map Prod.fst ∧
      ((mcEx none).aggregatorCall wEx).turbulence_intensity = none) ∧
    ("turbulence_intensity" ∈ wExTI.cols.map Prod.fst ∧
      ((mcEx none).aggregatorCall wExTI).turbulence_intensity =
        some (mean (colEntries wExTI "turbulence_intensity"))) :=
  ⟨⟨by decide,
      (C3_turbulence_intensity_sentinel_or_mean (mcEx none) wEx).1
        (by decide)⟩,
    ⟨by decide,
      (C3_turbulence_intensity_sentinel_or_mean (mcEx none) wExTI).2
        (by decide)⟩⟩

theorem except_map_ok {α β : Type} {e : Except String α} {f : α → β} {b : β}
    (h : e.map f = Except.ok b) : ∃ a, e = Except.ok a ∧ b = f a := by
  cases e with
  | error msg => simp [Except.map] at h
  | ok a =>
    refine ⟨a, rfl, ?_⟩
    simpa [Except.map] using h.symm

theorem prepared_pom_eq (mc : TurbineClusterModelChain) (w : WeatherDf) :
    (mc.prepared w).power_output_model = mc.power_output_model := rfl

theorem prepared_dc_eq (mc : TurbineClusterModelChain) (w : WeatherDf) :
    (mc.prepared w).density_correction = mc.density_correction := rfl

/-- C4: the density argument of the final power evaluation is `None` exactly
when `power_output_model` is `power_curve` and `density_correction` is false;
in that case the density resolver is never invoked (the run result does not
depend on it), and in every other case the resolved hub-height density is
passed on. -/
theorem C4_density_skip_rule (mc : TurbineClusterModelChain)
    (w : WeatherDf) :
    (∀ r, densityArgWith r (mc.prepared w) w = none ↔
        (mc.power_output_model = "power_curve" ∧
          mc.density_correction = false)) ∧
    ((mc.power_output_model = "power_curve" ∧
        mc.density_correction = false) →
      ∀ r1 r2, run_model_with r1 mc w = run_model_with r2 mc w) ∧
    (¬ (mc.power_output_model = "power_curve" ∧
        mc.density_correction = false) →
      ∀ r, densityArgWith r (mc.prepared w) w =
        some (r (mc.prepared w) w)) := by
  refine ⟨fun r => ?_, fun hc r1 r2 => ?_, fun hc r => ?_⟩
  · unfold densityArgWith
    rw [prepared_pom_eq, prepared_dc_eq]
    split <;> simp_all
  · have hnone : ∀ r, densityArgWith r (mc.prepared w) w = none := by
      intro r
      unfold densityArgWith
      rw [prepared_pom_eq, prepared_dc_eq, if_pos hc]
    unfold run_model_with evalStageWith
    rw [hnone r1, hnone r2]
  · unfold densityArgWith
    rw [prepared_pom_eq, prepared_dc_eq, if_neg hc]

theorem C4_witness :
    ((mcEx none).power_output_model = "power_curve" ∧
      (mcEx none).density_correction = false) ∧
    run_model_with (fun _ _ => { index := [], values := [] }) (mcEx none)
        wEx =
      run_model_with density_hub (mcEx none) wEx ∧
    ¬ ((mcExDc none).power_output_model = "power_curve" ∧
        (mcExDc none).density_correction = false) ∧
    densityArgWith density_hub ((mcExDc none).prepared wEx) wEx =
      some (density_hub ((mcExDc none).prepared wEx) wEx) :=
  ⟨⟨rfl, rfl⟩,
    (C4_density_skip_rule (mcEx none) wEx).2.1 ⟨rfl, rfl⟩ _ _,
    by decide,
    (C4_density_skip_rule (mcExDc none) wEx).2.2 (by decide) _⟩

/-- C5 counterexample: after a successful `run_model` call the orchestrator
attribute `power_curve` still holds its construction value `None`, although
the curve actually used for the run (stored on the plant) is present — so
`run_model` does not set the orchestrator `power_curve` anew. -/
theorem C5_counterexample_power_curve_not_set :
    ((mcEx none).run_model wEx).toOption.map
        (fun m => m.power_curve) = some none ∧
    ((mcEx none).run_model wEx).toOption.map
        (fun m => m.power_plant.power_curve.isSome) = some true := by
  decide

/-- C5 amended: every successful `run_model` call sets `power_output` anew
and stores the curve used for the run on `power_plant.power_curve`
(overwriting the plant prior curve); the orchestrator own `power_curve`
attribute is not updated by `run_model` and keeps its prior value. -/
theorem C5_amended_run_results (mc : TurbineClusterModelChain)
    (w : WeatherDf) (mc' : TurbineClusterModelChain)
    (h : mc.run_model w = Except.ok mc') :
    mc'.power_output.isSome = true ∧
    mc'.power_curve = mc.power_curve ∧
    mc'.power_plant.power_curve =
      some (aggregatePowerCurve mc.power_plant (mc.aggregatorCall w)) := by
  obtain ⟨s, -, rfl⟩ := except_map_ok h
  exact ⟨rfl, rfl, rfl⟩

theorem C5_witness :
    (mcEx none).run_model wEx = Except.ok mcRunEx ∧
    (mcRunEx.power_output.isSome = true ∧
      mcRunEx.power_curve = (mcEx none).power_curve ∧
      mcRunEx.power_plant.power_curve =
        some (aggregatePowerCurve (mcEx none).power_plant
          ((mcEx none).aggregatorCall wEx))) :=
  ⟨by with_unfolding_all decide,
    C5_amended_run_results (mcEx none) wEx mcRunEx
      (by with_unfolding_all decide)⟩

/-- C8: an unrecognized wake-loss model name is accepted by construction and
by `assign_power_curve` (which still aggregates and stores a plant curve);
`run_model` fails, with exactly the error of the wind-efficiency-curve lookup
performed by `wake_losses.reduce_wind_speed`. -/
theorem C8_unknown_curve_fails_lazily (mc : TurbineClusterModelChain)
    (w : WeatherDf) (n : String)
    (hn : mc.wake_losses_model = some n)
    (h1 : n ≠ "power_efficiency_curve") (h2 : n ≠ "constant_efficiency")
    (hu : get_wind_efficiency_curve n = none) :
    (∀ p sm bw sdm so wsm tm dm pom dc oh he,
      (TurbineClusterModelChain.init p (some n) sm bw sdm so wsm tm dm pom
        dc oh he).wake_losses_model = some n) ∧
    (mc.assign_power_curve w).power_plant.power_curve =
      some (aggregatePowerCurve mc.power_plant (mc.aggregatorCall w)) ∧
    reduce_wind_speed (wind_speed_hub (mc.prepared w) w) n =
      Except.error ("ConfigurationError: wind efficiency curve <" ++ n ++
        "> is not provided") ∧
    mc.run_model w =
      Except.error ("ConfigurationError: wind efficiency curve <" ++ n ++
        "> is not provided") := by
  refine ⟨fun _ _ _ _ _ _ _ _ _ _ _ _ => rfl, rfl, ?_, ?_⟩
  · unfold reduce_wind_speed
    rw [hu]
  · unfold TurbineClusterModelChain.run_model run_model_with evalStageWith
    rw [prepared_wake_eq, hn]
    simp [h1, h2, reduce_wind_speed, hu, Except.map]

theorem C8_witness :
    (mcEx (some "no_such_curve")).wake_losses_model =
      some "no_such_curve" ∧
    get_wind_efficiency_curve "no_such_curve" = none ∧
    (((mcEx (some "no_such_curve")).assign_power_curve
          wEx).power_plant.power_curve =
        some (aggregatePowerCurve (mcEx (some "no_such_curve")).power_plant
          ((mcEx (some "no_such_curve")).aggregatorCall wEx)) ∧
      reduce_wind_speed
          (wind_speed_hub ((mcEx (some "no_such_curve")).prepared wEx) wEx)
          "no_such_curve" =
        Except.error
          ("ConfigurationError: wind efficiency curve <no_such_curve> is " ++
            "not provided") ∧
      (mcEx (some "no_such_curve")).run_model wEx =
        Except.error
          ("ConfigurationError: wind efficiency curve <no_such_curve> is " ++
            "not provided")) := by
  refine ⟨rfl, rfl, ?_⟩
  have h := C8_unknown_curve_fails_lazily (mcEx (some "no_such_curve")) wEx
    "no_such_curve" rfl (by decide) (by decide) rfl
  exact ⟨h.2.1, by simpa using h.2.2.1, by simpa using h.2.2.2⟩

/-- C9: neither `assign_power_curve` nor a successful `run_model` changes any
configuration field of the orchestrator (the cluster options and the
inherited single-turbine options); the orchestrator `power_curve` attribute is
also untouched, and `assign_power_curve` leaves `power_output` untouched —
only the borrowed plant and, for `run_model`, `power_output` change. -/
theorem C9_configuration_frame (mc : TurbineClusterModelChain)
    (w : WeatherDf) :
    configOf (mc.assign_power_curve w) = configOf mc ∧
    (mc.assign_power_curve w).power_curve = mc.power_curve ∧
    (mc.assign_power_curve w).power_output = mc.power_output ∧
    (∀ mc', mc.run_model w = Except.ok mc' →
      configOf mc' = configOf mc ∧ mc'.power_curve = mc.power_curve) := by
  refine ⟨rfl, rfl, rfl, fun mc' h => ?_⟩
  obtain ⟨s, -, rfl⟩ := except_map_ok h
  exact ⟨rfl, rfl⟩

theorem C9_witness :
    configOf ((mcEx none).assign_power_curve wEx) = configOf (mcEx none) ∧
    (mcEx none).run_model wEx = Except.ok mcRunEx ∧
    configOf mcRunEx = configOf (mcEx none) ∧
    mcRunEx.power_curve = (mcEx none).power_curve :=
  ⟨(C9_configuration_frame (mcEx none) wEx).1,
    by with_unfolding_all decide,
    (C9_configuration_frame (mcEx none) wEx).2.2.2 mcRunEx
      (by with_unfolding_all decide)⟩

/-- C10: `assign_power_curve` reads the weather only through the
turbulence-intensity columns: two weather inputs that both lack the column,
or both have it with the same mean over all heights and timestamps, lead to
the identical call to `power_plant.assign_power_curve` and hence to the
identical plant mutation — wind speed, temperature, pressure, density and
roughness length never influence the aggregated power curve. -/
theorem C10_aggregation_depends_only_on_turbulence
    (mc : TurbineClusterModelChain) (w1 w2 : WeatherDf)
    (h : ("turbulence_intensity" ∉ w1.cols.map Prod.fst ∧
          "turbulence_intensity" ∉ w2.cols.map Prod.fst) ∨
        ("turbulence_intensity" ∈ w1.cols.map Prod.fst ∧
          "turbulence_intensity" ∈ w2.cols.map Prod.fst ∧
          mean (colEntries w1 "turbulence_intensity") =
            mean (colEntries w2 "turbulence_intensity"))) :
    mc.aggregatorCall w1 = mc.aggregatorCall w2 ∧
    (mc.assign_power_curve w1).power_plant =
      (mc.assign_power_curve w2).power_plant := by
  have hti : turbulenceIntensityArg w1 = turbulenceIntensityArg w2 := by
    rcases h with ⟨h1, h2⟩ | ⟨h1, h2, h3⟩
    · simp [turbulenceIntensityArg, h1, h2]
    · simp [turbulenceIntensityArg, h1, h2, h3]
  have hcall : mc.aggregatorCall w1 = mc.aggregatorCall w2 := by
    unfold TurbineClusterModelChain.aggregatorCall
    rw [hti]
  refine ⟨hcall, ?_⟩
  unfold TurbineClusterModelChain.assign_power_curve
  rw [hcall]

theorem C10_witness :
    (("turbulence_intensity" ∉ wEx.cols.map Prod.fst ∧
        "turbulence_intensity" ∉ wEx2.cols.map Prod.fst) ∨
      ("turbulence_intensity" ∈ wEx.cols.map Prod.fst ∧
        "turbulence_intensity" ∈ wEx2.cols.map Prod.fst ∧
        mean (colEntries wEx "turbulence_intensity") =
          mean (colEntries wEx2 "turbulence_intensity"))) ∧
    ((mcEx none).aggregatorCall wEx = (mcEx none).aggregatorCall wEx2 ∧
      ((mcEx none).assign_power_curve wEx).power_plant =
        ((mcEx none).assign_power_curve wEx2).power_plant) :=
  ⟨Or.inl ⟨by decide, by decide⟩,
    C10_aggregation_depends_only_on_turbulence (mcEx none) wEx wEx2
      (Or.inl ⟨by decide, by decide⟩)⟩

theorem evalStage_density_congr (a b : TurbineClusterModelChain)
    (w : WeatherDf)
    (hp : a.power_plant = b.power_plant)
    (hw : a.wake_losses_model = b.wake_losses_model)
    (hpom : a.power_output_model = b.power_output_model)
    (hdc : a.density_correction = b.density_correction) :
    evalStageWith density_hub a w = evalStageWith density_hub b w := by
  unfold evalStageWith densityArgWith wind_speed_hub
    TurbineClusterModelChain.calculate_power_output density_hub
  rw [hp, hw, hpom, hdc]

/-- C6: running the model twice in succession on the same weather input,
with no intervening mutation of the plant turbine configuration, yields
identical `power_output` both times. -/
theorem C6_run_model_idempotent (mc mc1 mc2 : TurbineClusterModelChain)
    (w : WeatherDf)
    (h1 : mc.run_model w = Except.ok mc1)
    (h2 : mc1.run_model w = Except.ok mc2) :
    mc1.power_output = mc2.power_output := by
  obtain ⟨s1, he1, rfl⟩ := except_map_ok h1
  obtain ⟨s2, he2, rfl⟩ := except_map_ok h2
  have hcong :
      evalStageWith density_hub
        (({ mc.prepared w with power_output := some s1 } :
          TurbineClusterModelChain).prepared w) w =
      evalStageWith density_hub (mc.prepared w) w := by
    exact evalStage_density_congr _ _ w rfl rfl rfl rfl
  rw [hcong, he1] at he2
  simpa using he2

theorem C6_witness :
    (mcEx none).run_model wEx = Except.ok mcRunEx ∧
    mcRunEx.run_model wEx = Except.ok mcRunEx2 ∧
    mcRunEx.power_output = mcRunEx2.power_output :=
  ⟨by with_unfolding_all decide, by with_unfolding_all decide,
    C6_run_model_idempotent (mcEx none) mcRunEx mcRunEx2 wEx
      (by with_unfolding_all decide) (by with_unfolding_all decide)⟩

theorem interpZero_nonneg :
    ∀ (c : List (ℚ × ℚ)),
      List.Chain' (fun a b : ℚ × ℚ => a.1 < b.1) c →
      (∀ q ∈ c, 0 ≤ q.2) → ∀ x : ℚ, 0 ≤ interpZero c x
  | [], _, _, x => by simp [interpZero]
  | [(x0, y0)], _, hn, x => by
    have h0 : (0 : ℚ) ≤ y0 := hn (x0, y0) (by simp)
    simp only [interpZero]
    split
    · exact h0
    · exact le_refl 0
  | (x0, y0) :: (x1, y1) :: rest, hs, hn, x => by
    have h01 : x0 < x1 := (List.chain'_cons.mp hs).1
    have htail := (List.chain'_cons.mp hs).2
    have hy0 : (0 : ℚ) ≤ y0 := hn (x0, y0) (by simp)
    have hy1 : (0 : ℚ) ≤ y1 := hn (x1, y1) (by simp)
    simp only [interpZero]
    split
    · exact le_refl 0
    · split
      · rename_i hx0 hx1
        have hx0a : x0 ≤ x := le_of_not_lt hx0
        have hd : (0 : ℚ) < x1 - x0 := by linarith
        have key : y0 + (y1 - y0) * (x - x0) / (x1 - x0) =
            (y0 * (x1 - x) + y1 * (x - x0)) / (x1 - x0) := by
          field_simp
          ring
        rw [key]
        apply div_nonneg _ (le_of_lt hd)
        have hm0 : (0 : ℚ) ≤ y0 * (x1 - x) := mul_nonneg hy0 (by linarith)
        have hm1 : (0 : ℚ) ≤ y1 * (x - x0) := mul_nonneg hy1 (by linarith)
        linarith
      · exact interpZero_nonneg ((x1, y1) :: rest) htail
          (fun q hq => hn q (List.mem_cons_of_mem _ hq)) x

theorem mem_insertSorted (x b : ℚ) :
    ∀ l : List ℚ, b ∈ insertSorted x l → b = x ∨ b ∈ l := by
  intro l
  induction l with
  | nil =>
    intro h
    simp [insertSorted] at h
    exact Or.inl h
  | cons y ys ih =>
    intro h
    simp only [insertSorted] at h
    split at h
    · rcases List.mem_cons.mp h with h | h
      · exact Or.inl h
      · exact Or.inr h
    · split at h
      · exact Or.inr h
      · rcases List.mem_cons.mp h with h | h
        · exact Or.inr (by simp [h])
        · rcases ih h with h | h
          · exact Or.inl h
          · exact Or.inr (List.mem_cons_of_mem _ h)

theorem pairwise_insertSorted (x : ℚ) :
    ∀ l : List ℚ, List.Pairwise (· < ·) l →
      List.Pairwise (· < ·) (insertSorted x l) := by
  intro l
  induction l with
  | nil =>
    intro _
    simp [insertSorted]
  | cons y ys ih =>
    intro h
    rcases List.pairwise_cons.mp h with ⟨hy, hys⟩
    simp only [insertSorted]
    split
    · rename_i hxy
      refine List.pairwise_cons.mpr ⟨?_, h⟩
      intro b hb
      rcases List.mem_cons.mp hb with rfl | hb
      · exact hxy
      · exact lt_trans hxy (hy b hb)
    · split
      · exact h
      · rename_i hxy hne
        have hyx : y < x := by
          rcases lt_trichotomy x y with h1 | h1 | h1
          · exact absurd h1 hxy
          · exact absurd h1 hne
          · exact h1
        refine List.pairwise_cons.mpr ⟨?_, ih hys⟩
        intro b hb
        rcases mem_insertSorted x b ys hb with rfl | hb
        · exact hyx
        · exact hy b hb

theorem pairwise_sortedGrid (l : List ℚ) :
    List.Pairwise (· < ·) (sortedGrid l) := by
  induction l with
  | nil => simp [sortedGrid]
  | cons a l ih => exact pairwise_insertSorted a (sortedGrid l) ih

theorem smoothVals_nonneg :
    ∀ l : List ℚ, (∀ v ∈ l, 0 ≤ v) → ∀ v ∈ smoothVals l, 0 ≤ v
  | [], _, v, hv => by simp [smoothVals] at hv
  | [a], h, v, hv => by
    have hva : v = a := by simpa [smoothVals] using hv
    rw [hva]
    exact h a (by simp)
  | a :: b :: rest, h, v, hv => by
    simp only [smoothVals, List.mem_cons] at hv
    rcases hv with rfl | hv
    · have ha := h a (by simp)
      have hb := h b (by simp)
      linarith
    · exact smoothVals_nonneg (b :: rest)
        (fun u hu => h u (List.mem_cons_of_mem _ hu)) v hv

theorem chain_fst_zip :
    ∀ l v : List ℚ, List.Chain' (· < ·) l →
      List.Chain' (fun a b : ℚ × ℚ => a.1 < b.1) (l.zip v)
  | [], v, _ => by simp
  | [a], v, _ => by
    cases v with
    | nil => simp
    | cons c cs =>
      simp only [List.zip_cons_cons, List.zip_nil_left]
      exact List.chain'_singleton (a, c)
  | a :: b :: t, [], _ => by simp
  | a :: b :: t, [c], _ => by
    simp only [List.zip_cons_cons, List.zip_nil_left]
    exact List.chain'_singleton (a, c)
  | a :: b :: t, c :: d :: v, h => by
    rw [List.zip_cons_cons, List.zip_cons_cons]
    refine List.chain'_cons.mpr ⟨(List.chain'_cons.mp h).1, ?_⟩
    exact chain_fst_zip (b :: t) (d :: v) (List.chain'_cons.mp h).2

theorem zip_sortedNonneg (grid vals : List ℚ)
    (hg : List.Pairwise (· < ·) grid) (hv : ∀ v ∈ vals, 0 ≤ v) :
    SortedNonneg (grid.zip vals) := by
  constructor
  · exact chain_fst_zip grid vals (List.chain'_iff_pairwise.mpr hg)
  · rintro ⟨a, b⟩ hq
    exact hv b (List.of_mem_zip hq).2

theorem aggregateBaseVals_nonneg (p : PowerPlant)
    (ht : ∀ c ∈ p.turbine_curves, SortedNonneg c) :
    ∀ v ∈ aggregateBaseVals p, 0 ≤ v := by
  intro v hv
  rcases List.mem_map.mp hv with ⟨x, -, rfl⟩
  apply List.sum_nonneg
  intro s hs
  rcases List.mem_map.mp hs with ⟨c, hc, rfl⟩
  exact interpZero_nonneg c (ht c hc).1 (ht c hc).2 x

theorem aggregateWakeVals_nonneg (p : PowerPlant) (args : AggregatorArgs)
    (ht : ∀ c ∈ p.turbine_curves, SortedNonneg c)
    (he : 0 ≤ p.efficiency) :
    ∀ v ∈ aggregateWakeVals p args, 0 ≤ v := by
  intro v hv
  unfold aggregateWakeVals at hv
  split at hv
  · rcases List.mem_map.mp hv with ⟨u, hu, rfl⟩
    exact mul_nonneg (aggregateBaseVals_nonneg p ht u hu) he
  · rcases List.mem_map.mp hv with ⟨u, hu, rfl⟩
    exact mul_nonneg (aggregateBaseVals_nonneg p ht u hu) he
  · exact aggregateBaseVals_nonneg p ht v hv

theorem aggregateVals_nonneg (p : PowerPlant) (args : AggregatorArgs)
    (ht : ∀ c ∈ p.turbine_curves, SortedNonneg c)
    (he : 0 ≤ p.efficiency) :
    ∀ v ∈ aggregateVals p args, 0 ≤ v := by
  intro v hv
  unfold aggregateVals at hv
  split at hv
  · exact smoothVals_nonneg (aggregateWakeVals p args)
      (aggregateWakeVals_nonneg p args ht he) v hv
  · exact aggregateWakeVals_nonneg p args ht he v hv

theorem aggregate_sortedNonneg (p : PowerPlant) (args : AggregatorArgs)
    (ht : ∀ c ∈ p.turbine_curves, SortedNonneg c)
    (he : 0 ≤ p.efficiency) :
    SortedNonneg (aggregatePowerCurve p args) :=
  zip_sortedNonneg (aggregateGrid p) (aggregateVals p args)
    (pairwise_sortedGrid _) (aggregateVals_nonneg p args ht he)

theorem zipWith_interp_nonneg (curve : PowerCurve) (hc : SortedNonneg curve)
    (g : ℚ → ℚ → ℚ) :
    ∀ l1 l2 : List ℚ,
      ∀ v ∈ List.zipWith (fun a b => interpZero curve (g a b)) l1 l2,
        0 ≤ v
  | [], _, v, hv => by simp at hv
  | _ :: _, [], v, hv => by simp at hv
  | a :: l1, b :: l2, v, hv => by
    rw [List.zipWith_cons_cons] at hv
    rcases List.mem_cons.mp hv with rfl | hv
    · exact interpZero_nonneg curve hc.1 hc.2 (g a b)
    · exact zipWith_interp_nonneg curve hc g l1 l2 v hv

theorem calculate_power_output_spec (mc : TurbineClusterModelChain)
    (ws : Series) (d : Option Series)
    (hc : SortedNonneg (mc.power_plant.power_curve.getD [])) :
    (mc.calculate_power_output ws d).index = ws.index ∧
    ∀ v ∈ (mc.calculate_power_output ws d).values, 0 ≤ v := by
  refine ⟨rfl, ?_⟩
  intro v hv
  unfold TurbineClusterModelChain.calculate_power_output at hv
  simp only at hv
  cases d with
  | none =>
    rcases List.mem_map.mp hv with ⟨u, -, rfl⟩
    exact interpZero_nonneg _ hc.1 hc.2 u
  | some ds =>
    exact zipWith_interp_nonneg _ hc
      (fun v r => v * (r / (49/40))) ws.values ds.values v hv

/-- C7: whenever `run_model` succeeds, the stored `power_output` is a series
whose index equals the input weather index entry for entry, and all of whose
values are non-negative (assuming the member turbine curves satisfy the
`PowerCurve` invariant: ascending wind speeds, non-negative powers, and a
non-negative farm efficiency). -/
theorem C7_output_aligned_and_nonneg (mc : TurbineClusterModelChain)
    (w : WeatherDf) (mc' : TurbineClusterModelChain)
    (h : mc.run_model w = Except.ok mc')
    (ht : ∀ c ∈ mc.power_plant.turbine_curves, SortedNonneg c)
    (he : 0 ≤ mc.power_plant.efficiency) :
    ∃ s, mc'.power_output = some s ∧ s.index = w.index ∧
      ∀ v ∈ s.values, 0 ≤ v := by
  obtain ⟨s, hes, rfl⟩ := except_map_ok h
  refine ⟨s, rfl, ?_⟩
  have hcurve :
      SortedNonneg ((mc.prepared w).power_plant.power_curve.getD []) := by
    have hpc : (mc.prepared w).power_plant.power_curve.getD [] =
        aggregatePowerCurve mc.power_plant (mc.aggregatorCall w) := rfl
    rw [hpc]
    exact aggregate_sortedNonneg mc.power_plant (mc.aggregatorCall w) ht he
  unfold evalStageWith at hes
  split at hes
  · injection hes with hes
    subst hes
    exact calculate_power_output_spec (mc.prepared w) _ _ hcurve
  · split at hes
    · injection hes with hes
      subst hes
      exact calculate_power_output_spec (mc.prepared w) _ _ hcurve
    · unfold reduce_wind_speed at hes
      split at hes
      · simp [Except.map] at hes
      · simp only [Except.map] at hes
        injection hes with hes
        subst hes
        exact calculate_power_output_spec (mc.prepared w) _ _ hcurve

theorem C7_witness :
    (mcEx none).run_model wEx = Except.ok mcRunEx ∧
    (∀ c ∈ (mcEx none).power_plant.turbine_curves, SortedNonneg c) ∧
    0 ≤ (mcEx none).power_plant.efficiency ∧
    (∃ s, mcRunEx.power_output = some s ∧ s.index = wEx.index ∧
      ∀ v ∈ s.values, 0 ≤ v) :=
  ⟨by with_unfolding_all decide, by with_unfolding_all decide,
    by with_unfolding_all decide,
    C7_output_aligned_and_nonneg (mcEx none) wEx mcRunEx
      (by with_unfolding_all decide) (by with_unfolding_all decide)
      (by with_unfolding_all decide)⟩

end Windpowerlib
